import Mathlib

/-!
Shallow embedding of `transcribe_api1.py` (FICTranscribe).

Python floats are modelled as rationals `ℚ`; Python `a % n` on numbers is
`a - n * ⌊a / n⌋`; `int(x)` on a non-negative value is `⌊x⌋`.  Strings are
Lean `String`s; the filesystem side effects of the Flask handler are recorded
as an explicit list of operations, and the speech engine together with the
fallible I/O steps is an oracle (`World`) passed to the handler.
-/

/-- Python's zero padding of a decimal string to width `w`
(the `0` fill of a format spec such as `{n:02}`). -/
def zfill (w : Nat) (s : String) : String :=
  if s.length < w then String.mk (List.replicate (w - s.length) '0') ++ s else s

/-- Python `f"{n:0w}"` for an integer `n`: zero padding aware of the sign. -/
def pyFmt0 (w : Nat) (n : Int) : String :=
  if n < 0 then "-" ++ zfill (w - 1) (toString n.natAbs)
  else zfill w (toString n.natAbs)

/-- Python's `%` on numbers: `a % n = a - n * floor (a / n)`. -/
def pyMod (a n : ℚ) : ℚ := a - n * Rat.floor (a / n)

/-- `format_timestamp` from `transcribe_api1.py` lines 178-183.  Note that the
source rebinds `seconds` to `int(seconds % 60)` before computing
`milliseconds = int((seconds % 1) * 1000)`. -/
def format_timestamp (seconds : ℚ) : String :=
  let hours : Int := Rat.floor (seconds / 3600)
  let minutes : Int := Rat.floor (pyMod seconds 3600 / 60)
  let seconds2 : Int := Rat.floor (pyMod seconds 60)
  let milliseconds : Int := (seconds2 % 1) * 1000
  pyFmt0 2 hours ++ ":" ++ pyFmt0 2 minutes ++ ":" ++ pyFmt0 2 seconds2 ++
    "." ++ pyFmt0 3 milliseconds

/-- The timestamp formatter as the spec intends it (spec sections 4.1 and 9):
identical to `format_timestamp` except that milliseconds are computed from the
fractional part of the original seconds value,
`millis = floor(fractional_part_of(seconds) * 1000)`. -/
def format_timestamp_intended (seconds : ℚ) : String :=
  let hours : Int := Rat.floor (seconds / 3600)
  let minutes : Int := Rat.floor (pyMod seconds 3600 / 60)
  let seconds2 : Int := Rat.floor (pyMod seconds 60)
  let milliseconds : Int := Rat.floor (pyMod seconds 1 * 1000)
  pyFmt0 2 hours ++ ":" ++ pyFmt0 2 minutes ++ ":" ++ pyFmt0 2 seconds2 ++
    "." ++ pyFmt0 3 milliseconds

/-- A timed segment of the engine result (`result["segments"]` entries):
`{start: float seconds, end: float seconds, text: string}`.  The `end` field
is called `stop` because `end` is a Lean keyword. -/
structure Segment where
  start : ℚ
  stop : ℚ
  text : String
deriving DecidableEq

/-- The structured result of the recognition engine
(`model.transcribe(file_path)`): a transcript string and timed segments. -/
structure EngineResult where
  text : String
  segments : List Segment
deriving DecidableEq

/-- The caption file content built by the loop of `transcribe_api1.py` lines
99-107: the writes to `vtt_file` concatenate onto the header `"WEBVTT\n\n"`. -/
def vtt_content (segments : List Segment) : String :=
  segments.foldl
    (fun acc segment =>
      acc ++ (format_timestamp segment.start ++ " --> " ++ format_timestamp segment.stop ++
        "\n" ++ segment.text ++ "\n\n"))
    "WEBVTT\n\n"

/-- The cue blocks as the spec describes them: for each segment in order, a
line `<start> --> <end>`, the segment text on the next line, then a blank
line. -/
def cue_blocks : List Segment → String
  | [] => ""
  | segment :: rest =>
      (format_timestamp segment.start ++ " --> " ++ format_timestamp segment.stop ++
        "\n" ++ segment.text ++ "\n\n") ++ cue_blocks rest

/-- Python `str.rfind` on a character list: the last index holding `c`,
or `-1` when absent. -/
def rfind (c : Char) : List Char → Int
  | [] => -1
  | x :: xs =>
      let r := rfind c xs
      if r ≥ 0 then r + 1 else if x = c then 0 else -1

/-- CPython `os.path.splitext` for POSIX paths (`genericpath._splitext` with
separator `'/'` and extension separator `'.'`): splits at the last dot that
comes after the last slash, unless the base name up to that dot is entirely
dots. -/
def splitext (p : String) : String × String :=
  let cs := p.toList
  let sepIndex := rfind '/' cs
  let dotIndex := rfind '.' cs
  if sepIndex < dotIndex then
    let base := (cs.drop (sepIndex + 1).toNat).take (dotIndex - sepIndex - 1).toNat
    if base.any (fun c => c ≠ '.') then
      (String.mk (cs.take dotIndex.toNat), String.mk (cs.drop dotIndex.toNat))
    else (p, "")
  else (p, "")

/-- CPython `os.path.join` for POSIX paths, two arguments. -/
def path_join (a b : String) : String :=
  if b.startsWith "/" then b
  else if a = "" ∨ a.endsWith "/" then a ++ b
  else a ++ "/" ++ b

/-- The per-request directory name (`transcribe_api1.py` line 76):
`f"{os.path.splitext(audio_file.filename)[0]}_{timestamp}"`. -/
def folder_name (filename timestamp : String) : String :=
  (splitext filename).1 ++ "_" ++ timestamp

/-- The transcript artifact name (line 91): stem plus `"_transcribed.txt"`. -/
def text_filename (filename : String) : String :=
  (splitext filename).1 ++ "_transcribed.txt"

/-- The caption artifact name (line 97): stem plus `".vtt"`. -/
def vtt_filename (filename : String) : String :=
  (splitext filename).1 ++ ".vtt"

/-- Process configuration (the `constants` module, not under `src/`): the
shared secret `HARDCODED_TOKEN` and the storage root `STATIC_FOLDER`. -/
structure Config where
  token : String
  staticFolder : String
deriving DecidableEq

/-- The uploaded multipart file: original filename plus raw bytes (modelled
opaquely as a string, since the handler never inspects them). -/
structure UploadedFile where
  filename : String
  content : String
deriving DecidableEq

/-- One inbound `POST /transcribe` request: the `Authorization` header (absent
headers give `none`) and the optional `audio_file` form field. -/
structure Request where
  authorization : Option String
  audioFile : Option UploadedFile
deriving DecidableEq

/-- A filesystem side effect performed by the handler, in order:
`os.makedirs(path, exist_ok=True)` or a file write. -/
inductive FsOp where
  | makedirs (path : String)
  | writeFile (path : String) (content : String)
deriving DecidableEq

/-- The HTTP-level result of the handler: a 200 JSON body, or an error body
with its status code. -/
inductive HandlerResult where
  | ok (transcribed_text text_file_path vtt_file_path : String)
  | err (status : Nat) (error : String)
deriving DecidableEq

/-- Everything one handler invocation produces: the response, the filesystem
operations in the order performed, and the log lines emitted. -/
structure Outcome where
  result : HandlerResult
  fsOps : List FsOp
  logs : List String
deriving DecidableEq

/-- The oracle for one request: the current time already rendered as
`YYYYMMDD_HHMMSS`, the engine (which may raise), and injected exceptions for
the three fallible I/O steps (`audio_file.save`, writing the text file,
writing the VTT file); `some msg` means the step raises `msg`. -/
structure World where
  now : String
  engine : String → Except String EngineResult
  saveAudioFailure : Option String
  writeTextFailure : Option String
  writeVttFailure : Option String

/-- The `POST /transcribe` handler (`transcribe_api1.py` lines 63-118): token
check, audio-field check, folder creation, audio save, engine call, artifact
writes, all inside one `try/except` that converts any exception into a 500
with the fixed body `Internal server error` after logging the cause. -/
def transcribe (cfg : Config) (w : World) (req : Request) : Outcome :=
  if req.authorization = some cfg.token then
    match req.audioFile with
    | none => ⟨.err 400 "No audio file provided", [], []⟩
    | some audio =>
      let folderPath := path_join cfg.staticFolder (folder_name audio.filename w.now)
      let filePath := path_join folderPath audio.filename
      match w.saveAudioFailure with
      | some e =>
          ⟨.err 500 "Internal server error", [.makedirs folderPath],
            ["Error during transcription: " ++ e]⟩
      | none =>
        match w.engine filePath with
        | .error e =>
            ⟨.err 500 "Internal server error",
              [.makedirs folderPath, .writeFile filePath audio.content],
              ["Transcribing audio file: " ++ filePath,
               "Error during transcription: " ++ e]⟩
        | .ok result =>
          let textFilePath := path_join folderPath (text_filename audio.filename)
          let vttFilePath := path_join folderPath (vtt_filename audio.filename)
          match w.writeTextFailure with
          | some e =>
              ⟨.err 500 "Internal server error",
                [.makedirs folderPath, .writeFile filePath audio.content],
                ["Transcribing audio file: " ++ filePath,
                 "Error during transcription: " ++ e]⟩
          | none =>
            match w.writeVttFailure with
            | some e =>
                ⟨.err 500 "Internal server error",
                  [.makedirs folderPath, .writeFile filePath audio.content,
                   .writeFile textFilePath result.text],
                  ["Transcribing audio file: " ++ filePath,
                   "Error during transcription: " ++ e]⟩
            | none =>
                ⟨.ok result.text textFilePath vttFilePath,
                  [.makedirs folderPath, .writeFile filePath audio.content,
                   .writeFile textFilePath result.text,
                   .writeFile vttFilePath (vtt_content result.segments)],
                  ["Transcribing audio file: " ++ filePath,
                   "Transcription completed for file: " ++ filePath]⟩
  else ⟨.err 401 "Invalid token", [], []⟩

/-- The result of a download endpoint: the file streamed back as an
attachment, or a 404 error body. -/
inductive DownloadResult where
  | attachment (path : String)
  | notFound (status : Nat) (error : String)
deriving DecidableEq

/-- `GET /downloadText/<folder_name>/<filename>` (lines 142-147): join the
storage root, folder and filename; `send_file` raises `FileNotFoundError`
when the path is absent, which is converted to a 404.  `fs p = true` means a
file exists at path `p`. -/
def download_text (cfg : Config) (fs : String → Bool) (folder filename : String) :
    DownloadResult :=
  let text_file_path := path_join (path_join cfg.staticFolder folder) filename
  if fs text_file_path then .attachment text_file_path
  else .notFound 404 "File not found"

/-- `GET /downloadVtt/<folder_name>/<filename>` (lines 171-176): identical to
the text endpoint except for which artifact it serves. -/
def download_vtt (cfg : Config) (fs : String → Bool) (folder filename : String) :
    DownloadResult :=
  let vtt_file_path := path_join (path_join cfg.staticFolder folder) filename
  if fs vtt_file_path then .attachment vtt_file_path
  else .notFound 404 "File not found"

example : splitext "clip.wav" = ("clip", ".wav") := by decide
example : splitext ".bashrc" = (".bashrc", "") := by decide
example : folder_name "clip.wav" "20240101_120000" = "clip_20240101_120000" := by decide
example : vtt_content [] = "WEBVTT\n\n" := by decide

theorem ratFloor_eq (q : ℚ) : Rat.floor q = ⌊q⌋ := by
  rw [Rat.floor_def', Rat.floor_def]

theorem ratFloor_eq_of (q : ℚ) (z : ℤ) (h1 : (z : ℚ) ≤ q) (h2 : q < z + 1) :
    Rat.floor q = z := by
  rw [ratFloor_eq]
  exact Int.floor_eq_iff.mpr ⟨h1, by exact_mod_cast h2⟩

theorem pyMod_eval (a n r : ℚ) (z : ℤ) (e : Rat.floor (a / n) = z)
    (h : a - n * z = r) : pyMod a n = r := by
  rw [pyMod, e, h]

theorem pyMod_eq_mul_fract (a n : ℚ) (hn : n ≠ 0) :
    pyMod a n = n * Int.fract (a / n) := by
  rw [pyMod, ratFloor_eq, Int.fract]
  field_simp

theorem pyMod_nonneg (a n : ℚ) (hn : 0 < n) : 0 ≤ pyMod a n := by
  rw [pyMod_eq_mul_fract a n hn.ne']
  exact mul_nonneg hn.le (Int.fract_nonneg _)

theorem pyMod_lt (a n : ℚ) (hn : 0 < n) : pyMod a n < n := by
  rw [pyMod_eq_mul_fract a n hn.ne']
  calc n * Int.fract (a / n) < n * 1 := mul_lt_mul_of_pos_left (Int.fract_lt_one _) hn
  _ = n := mul_one n

theorem ratFloor_nonneg (q : ℚ) (h : 0 ≤ q) : 0 ≤ Rat.floor q := by
  rw [ratFloor_eq]
  exact Int.floor_nonneg.mpr h

theorem pyFmt0_of_nonneg (w : Nat) (n : ℤ) (h : 0 ≤ n) :
    pyFmt0 w n = zfill w (toString n.natAbs) := by
  rw [pyFmt0, if_neg (not_lt.mpr h)]

theorem format_timestamp_eval (q : ℚ) (h m s : ℤ)
    (e1 : Rat.floor (q / 3600) = h)
    (e2 : Rat.floor (pyMod q 3600 / 60) = m)
    (e3 : Rat.floor (pyMod q 60) = s) :
    format_timestamp q =
      pyFmt0 2 h ++ ":" ++ pyFmt0 2 m ++ ":" ++ pyFmt0 2 s ++
        "." ++ pyFmt0 3 ((s % 1) * 1000) := by
  simp only [format_timestamp, e1, e2, e3]

theorem format_timestamp_intended_eval (q : ℚ) (h m s ms : ℤ)
    (e1 : Rat.floor (q / 3600) = h)
    (e2 : Rat.floor (pyMod q 3600 / 60) = m)
    (e3 : Rat.floor (pyMod q 60) = s)
    (e4 : Rat.floor (pyMod q 1 * 1000) = ms) :
    format_timestamp_intended q =
      pyFmt0 2 h ++ ":" ++ pyFmt0 2 m ++ ":" ++ pyFmt0 2 s ++
        "." ++ pyFmt0 3 ms := by
  simp only [format_timestamp_intended, e1, e2, e3, e4]

theorem eval_floor_3661_5_hours : Rat.floor ((7323 / 2 : ℚ) / 3600) = 1 :=
  ratFloor_eq_of _ 1 (by norm_num) (by norm_num)

theorem eval_pyMod_3661_5_3600 : pyMod (7323 / 2 : ℚ) 3600 = 123 / 2 :=
  pyMod_eval _ _ _ 1 eval_floor_3661_5_hours (by norm_num)

theorem eval_floor_3661_5_minutes : Rat.floor (pyMod (7323 / 2 : ℚ) 3600 / 60) = 1 := by
  rw [eval_pyMod_3661_5_3600]
  exact ratFloor_eq_of _ 1 (by norm_num) (by norm_num)

theorem eval_pyMod_3661_5_60 : pyMod (7323 / 2 : ℚ) 60 = 3 / 2 :=
  pyMod_eval _ _ _ 61 (ratFloor_eq_of _ 61 (by norm_num) (by norm_num)) (by norm_num)

theorem eval_floor_3661_5_secs : Rat.floor (pyMod (7323 / 2 : ℚ) 60) = 1 := by
  rw [eval_pyMod_3661_5_60]
  exact ratFloor_eq_of _ 1 (by norm_num) (by norm_num)

theorem eval_format_timestamp_3661_5 : format_timestamp (7323 / 2) = "01:01:01.000" := by
  rw [format_timestamp_eval (7323 / 2) 1 1 1 eval_floor_3661_5_hours
    eval_floor_3661_5_minutes eval_floor_3661_5_secs]
  decide

theorem eval_pyMod_3661_5_1 : pyMod (7323 / 2 : ℚ) 1 = 1 / 2 :=
  pyMod_eval _ _ _ 3661 (ratFloor_eq_of _ 3661 (by norm_num) (by norm_num)) (by norm_num)

theorem eval_intended_3661_5 : format_timestamp_intended (7323 / 2) = "01:01:01.500" := by
  rw [format_timestamp_intended_eval (7323 / 2) 1 1 1 500 eval_floor_3661_5_hours
    eval_floor_3661_5_minutes eval_floor_3661_5_secs
    (by rw [eval_pyMod_3661_5_1]; exact ratFloor_eq_of _ 500 (by norm_num) (by norm_num))]
  decide

theorem eval_floor_59_999_hours : Rat.floor ((59999 / 1000 : ℚ) / 3600) = 0 :=
  ratFloor_eq_of _ 0 (by norm_num) (by norm_num)

theorem eval_pyMod_59_999_3600 : pyMod (59999 / 1000 : ℚ) 3600 = 59999 / 1000 :=
  pyMod_eval _ _ _ 0 eval_floor_59_999_hours (by norm_num)

theorem eval_floor_59_999_minutes : Rat.floor (pyMod (59999 / 1000 : ℚ) 3600 / 60) = 0 := by
  rw [eval_pyMod_59_999_3600]
  exact ratFloor_eq_of _ 0 (by norm_num) (by norm_num)

theorem eval_pyMod_59_999_60 : pyMod (59999 / 1000 : ℚ) 60 = 59999 / 1000 :=
  pyMod_eval _ _ _ 0 (ratFloor_eq_of _ 0 (by norm_num) (by norm_num)) (by norm_num)

theorem eval_floor_59_999_secs : Rat.floor (pyMod (59999 / 1000 : ℚ) 60) = 59 := by
  rw [eval_pyMod_59_999_60]
  exact ratFloor_eq_of _ 59 (by norm_num) (by norm_num)

theorem eval_format_timestamp_59_999 : format_timestamp (59999 / 1000) = "00:00:59.000" := by
  rw [format_timestamp_eval (59999 / 1000) 0 0 59 eval_floor_59_999_hours
    eval_floor_59_999_minutes eval_floor_59_999_secs]
  decide

theorem eval_pyMod_59_999_1 : pyMod (59999 / 1000 : ℚ) 1 = 999 / 1000 :=
  pyMod_eval _ _ _ 59 (ratFloor_eq_of _ 59 (by norm_num) (by norm_num)) (by norm_num)

theorem eval_intended_59_999 : format_timestamp_intended (59999 / 1000) = "00:00:59.999" := by
  rw [format_timestamp_intended_eval (59999 / 1000) 0 0 59 999 eval_floor_59_999_hours
    eval_floor_59_999_minutes eval_floor_59_999_secs
    (by rw [eval_pyMod_59_999_1]; exact ratFloor_eq_of _ 999 (by norm_num) (by norm_num))]
  decide

theorem eval_floor_0_hours : Rat.floor ((0 : ℚ) / 3600) = 0 :=
  ratFloor_eq_of _ 0 (by norm_num) (by norm_num)

theorem eval_pyMod_0_3600 : pyMod (0 : ℚ) 3600 = 0 :=
  pyMod_eval _ _ _ 0 eval_floor_0_hours (by norm_num)

theorem eval_floor_0_minutes : Rat.floor (pyMod (0 : ℚ) 3600 / 60) = 0 := by
  rw [eval_pyMod_0_3600]
  exact ratFloor_eq_of _ 0 (by norm_num) (by norm_num)

theorem eval_pyMod_0_60 : pyMod (0 : ℚ) 60 = 0 :=
  pyMod_eval _ _ _ 0 (ratFloor_eq_of _ 0 (by norm_num) (by norm_num)) (by norm_num)

theorem eval_floor_0_secs : Rat.floor (pyMod (0 : ℚ) 60) = 0 := by
  rw [eval_pyMod_0_60]
  exact ratFloor_eq_of _ 0 (by norm_num) (by norm_num)

theorem eval_format_timestamp_0 : format_timestamp 0 = "00:00:00.000" := by
  rw [format_timestamp_eval 0 0 0 0 eval_floor_0_hours eval_floor_0_minutes
    eval_floor_0_secs]
  decide

theorem eval_floor_360000_hours : Rat.floor ((360000 : ℚ) / 3600) = 100 :=
  ratFloor_eq_of _ 100 (by norm_num) (by norm_num)

theorem eval_pyMod_360000_3600 : pyMod (360000 : ℚ) 3600 = 0 :=
  pyMod_eval _ _ _ 100 eval_floor_360000_hours (by norm_num)

theorem eval_floor_360000_minutes : Rat.floor (pyMod (360000 : ℚ) 3600 / 60) = 0 := by
  rw [eval_pyMod_360000_3600]
  exact ratFloor_eq_of _ 0 (by norm_num) (by norm_num)

theorem eval_pyMod_360000_60 : pyMod (360000 : ℚ) 60 = 0 :=
  pyMod_eval _ _ _ 6000 (ratFloor_eq_of _ 6000 (by norm_num) (by norm_num)) (by norm_num)

theorem eval_floor_360000_secs : Rat.floor (pyMod (360000 : ℚ) 60) = 0 := by
  rw [eval_pyMod_360000_60]
  exact ratFloor_eq_of _ 0 (by norm_num) (by norm_num)

theorem eval_format_timestamp_360000 : format_timestamp 360000 = "100:00:00.000" := by
  rw [format_timestamp_eval 360000 100 0 0 eval_floor_360000_hours
    eval_floor_360000_minutes eval_floor_360000_secs]
  decide

theorem vtt_content_foldl (segments : List Segment) (acc : String) :
    segments.foldl
      (fun acc segment =>
        acc ++ (format_timestamp segment.start ++ " --> " ++ format_timestamp segment.stop ++
          "\n" ++ segment.text ++ "\n\n")) acc = acc ++ cue_blocks segments := by
  induction segments generalizing acc with
  | nil => simp [cue_blocks, String.append_empty]
  | cons s rest ih =>
      simp only [List.foldl_cons]
      rw [ih, cue_blocks, String.append_assoc]

/-- C3: for every sequence of segments, the generated caption document is the
header `WEBVTT` plus a blank line, followed by one cue block per segment in
input order (timestamp line, text line, blank line — so a trailing blank line
follows the final cue). -/
theorem c3_caption_document_structure (segments : List Segment) :
    vtt_content segments = "WEBVTT\n\n" ++ cue_blocks segments := by
  rw [vtt_content]
  exact vtt_content_foldl segments "WEBVTT\n\n"

theorem append_dot_000 (x : String) : x ++ "." ++ "000" = x ++ ".000" := by
  rw [String.append_assoc]
  congr 1

/-- C10: for every non-negative seconds value, the milliseconds field of
`format_timestamp` is `000`, because the source rebinds `seconds` to its
truncated integer value before taking it mod 1. -/
theorem c10_milliseconds_always_zero (q : ℚ) (h : 0 ≤ q) :
    ∃ p : String, format_timestamp q = p ++ ".000" := by
  refine ⟨pyFmt0 2 (Rat.floor (q / 3600)) ++ ":" ++
    pyFmt0 2 (Rat.floor (pyMod q 3600 / 60)) ++ ":" ++
    pyFmt0 2 (Rat.floor (pyMod q 60)), ?_⟩
  simp only [format_timestamp, Int.emod_one, zero_mul]
  rw [show pyFmt0 3 0 = "000" from by decide]
  exact append_dot_000 _

theorem c10_milliseconds_always_zero_witness :
    (0 : ℚ) ≤ 59999 / 1000 ∧
      ∃ p : String, format_timestamp (59999 / 1000) = p ++ ".000" :=
  ⟨by norm_num, c10_milliseconds_always_zero (59999 / 1000) (by norm_num)⟩

/-- C2: for every non-negative seconds value, `format_timestamp` decomposes it
into `hours = floor(seconds/3600)`, `minutes = floor((seconds mod 3600)/60)`,
`secs = floor(seconds mod 60)` and renders `HH:MM:SS.mmm` with hours, minutes
and seconds zero-padded to 2 digits and milliseconds to 3, with no wraparound
of hours at 100h; in particular `format_timestamp 0 = "00:00:00.000"`. -/
theorem c2_decomposition_and_rendering :
    (∀ q : ℚ, 0 ≤ q → ∃ ms : ℕ, ms < 1000 ∧
      format_timestamp q =
        zfill 2 (toString (⌊q / 3600⌋).natAbs) ++ ":" ++
        zfill 2 (toString (⌊(q - 3600 * ⌊q / 3600⌋) / 60⌋).natAbs) ++ ":" ++
        zfill 2 (toString (⌊q - 60 * ⌊q / 60⌋⌋).natAbs) ++ "." ++
        zfill 3 (toString ms)) ∧
    format_timestamp 0 = "00:00:00.000" ∧
    format_timestamp 360000 = "100:00:00.000" := by
  refine ⟨?_, eval_format_timestamp_0, eval_format_timestamp_360000⟩
  intro q hq
  refine ⟨0, by norm_num, ?_⟩
  have h1 : (0 : ℤ) ≤ Rat.floor (q / 3600) := ratFloor_nonneg _ (by positivity)
  have h2 : (0 : ℤ) ≤ Rat.floor (pyMod q 3600 / 60) :=
    ratFloor_nonneg _ (div_nonneg (pyMod_nonneg q 3600 (by norm_num)) (by norm_num))
  have h3 : (0 : ℤ) ≤ Rat.floor (pyMod q 60) :=
    ratFloor_nonneg _ (pyMod_nonneg q 60 (by norm_num))
  simp only [format_timestamp, Int.emod_one, zero_mul]
  rw [pyFmt0_of_nonneg 2 _ h1, pyFmt0_of_nonneg 2 _ h2, pyFmt0_of_nonneg 2 _ h3,
    pyFmt0_of_nonneg 3 _ le_rfl]
  simp only [pyMod, ratFloor_eq, Int.natAbs_zero]

theorem c2_decomposition_and_rendering_witness :
    (0 : ℚ) ≤ 3600 ∧ ∃ ms : ℕ, ms < 1000 ∧
      format_timestamp 3600 =
        zfill 2 (toString (⌊(3600 : ℚ) / 3600⌋).natAbs) ++ ":" ++
        zfill 2 (toString (⌊((3600 : ℚ) - 3600 * ⌊(3600 : ℚ) / 3600⌋) / 60⌋).natAbs) ++ ":" ++
        zfill 2 (toString (⌊(3600 : ℚ) - 60 * ⌊(3600 : ℚ) / 60⌋⌋).natAbs) ++ "." ++
        zfill 3 (toString ms) :=
  ⟨by norm_num, c2_decomposition_and_rendering.1 3600 (by norm_num)⟩

/-- C1: the spec requires milliseconds to come from the fractional part of the
original seconds value, with `format_timestamp(3661.5) = "01:01:01.500"` and
`format_timestamp(59.999) = "00:00:59.999"`; the code instead truncates
`seconds` to an integer first, so it returns `"01:01:01.000"` and
`"00:00:59.000"`, while the spec-intended formatter returns the claimed
strings. -/
theorem c1_fractional_milliseconds_code_bug :
    format_timestamp (7323 / 2) = "01:01:01.000" ∧
    format_timestamp (7323 / 2) ≠ "01:01:01.500" ∧
    format_timestamp (59999 / 1000) = "00:00:59.000" ∧
    format_timestamp (59999 / 1000) ≠ "00:00:59.999" ∧
    format_timestamp_intended (7323 / 2) = "01:01:01.500" ∧
    format_timestamp_intended (59999 / 1000) = "00:00:59.999" := by
  refine ⟨eval_format_timestamp_3661_5, ?_, eval_format_timestamp_59_999, ?_,
    eval_intended_3661_5, eval_intended_59_999⟩
  · rw [eval_format_timestamp_3661_5]
    decide
  · rw [eval_format_timestamp_59_999]
    decide

theorem transcribe_success (cfg : Config) (w : World) (req : Request)
    (audio : UploadedFile) (res : EngineResult)
    (hauth : req.authorization = some cfg.token)
    (haudio : req.audioFile = some audio)
    (hsave : w.saveAudioFailure = none)
    (heng : w.engine (path_join (path_join cfg.staticFolder
      (folder_name audio.filename w.now)) audio.filename) = .ok res)
    (htext : w.writeTextFailure = none)
    (hvtt : w.writeVttFailure = none) :
    transcribe cfg w req =
      ⟨.ok res.text
          (path_join (path_join cfg.staticFolder (folder_name audio.filename w.now))
            (text_filename audio.filename))
          (path_join (path_join cfg.staticFolder (folder_name audio.filename w.now))
            (vtt_filename audio.filename)),
        [.makedirs (path_join cfg.staticFolder (folder_name audio.filename w.now)),
         .writeFile (path_join (path_join cfg.staticFolder
            (folder_name audio.filename w.now)) audio.filename) audio.content,
         .writeFile (path_join (path_join cfg.staticFolder
            (folder_name audio.filename w.now)) (text_filename audio.filename)) res.text,
         .writeFile (path_join (path_join cfg.staticFolder
            (folder_name audio.filename w.now)) (vtt_filename audio.filename))
           (vtt_content res.segments)],
        ["Transcribing audio file: " ++ path_join (path_join cfg.staticFolder
            (folder_name audio.filename w.now)) audio.filename,
         "Transcription completed for file: " ++ path_join (path_join cfg.staticFolder
            (folder_name audio.filename w.now)) audio.filename]⟩ := by
  simp [transcribe, hauth, haudio, hsave, heng, htext, hvtt]

/-- C4: on engine success, the transcript artifact written and the
`transcribed_text` field of the success response both equal the engine's
transcript string verbatim. -/
theorem c4_transcript_passthrough (cfg : Config) (w : World) (req : Request)
    (audio : UploadedFile) (res : EngineResult)
    (hauth : req.authorization = some cfg.token)
    (haudio : req.audioFile = some audio)
    (hsave : w.saveAudioFailure = none)
    (heng : w.engine (path_join (path_join cfg.staticFolder
      (folder_name audio.filename w.now)) audio.filename) = .ok res)
    (htext : w.writeTextFailure = none)
    (hvtt : w.writeVttFailure = none) :
    ∃ tp vp : String,
      (transcribe cfg w req).result = .ok res.text tp vp ∧
      FsOp.writeFile tp res.text ∈ (transcribe cfg w req).fsOps := by
  rw [transcribe_success cfg w req audio res hauth haudio hsave heng htext hvtt]
  exact ⟨_, _, rfl, by simp⟩

theorem c4_transcript_passthrough_witness :
    ∃ tp vp : String,
      (transcribe ⟨"secret", "static"⟩
        ⟨"20240101_120000", fun _ => .ok ⟨"hello world", []⟩, none, none, none⟩
        ⟨some "secret", some ⟨"clip.wav", "RIFFDATA"⟩⟩).result = .ok "hello world" tp vp ∧
      FsOp.writeFile tp "hello world" ∈
        (transcribe ⟨"secret", "static"⟩
          ⟨"20240101_120000", fun _ => .ok ⟨"hello world", []⟩, none, none, none⟩
          ⟨some "secret", some ⟨"clip.wav", "RIFFDATA"⟩⟩).fsOps :=
  c4_transcript_passthrough _ _ _ ⟨"clip.wav", "RIFFDATA"⟩ ⟨"hello world", []⟩
    rfl rfl rfl rfl rfl rfl

/-- C5: a request whose Authorization token is not exactly the configured
secret gets a 401 `Invalid token` response, with no filesystem operation
performed. -/
theorem c5_unauthorized_no_side_effects (cfg : Config) (w : World) (req : Request)
    (h : req.authorization ≠ some cfg.token) :
    transcribe cfg w req = ⟨.err 401 "Invalid token", [], []⟩ := by
  rw [transcribe, if_neg h]

theorem c5_unauthorized_no_side_effects_witness :
    (some "wrong" : Option String) ≠ some "secret" ∧
    transcribe ⟨"secret", "static"⟩
      ⟨"20240101_120000", fun _ => .error "unreachable", none, none, none⟩
      ⟨some "wrong", some ⟨"clip.wav", "RIFFDATA"⟩⟩ =
      ⟨.err 401 "Invalid token", [], []⟩ :=
  ⟨by decide, c5_unauthorized_no_side_effects _ _ _ (by decide)⟩

/-- C6: a request with a valid token but no `audio_file` field gets a 400
`No audio file provided` response, with no filesystem operation performed. -/
theorem c6_missing_audio_no_side_effects (cfg : Config) (w : World) (req : Request)
    (hauth : req.authorization = some cfg.token)
    (haudio : req.audioFile = none) :
    transcribe cfg w req = ⟨.err 400 "No audio file provided", [], []⟩ := by
  rw [transcribe, if_pos hauth, haudio]

theorem c6_missing_audio_no_side_effects_witness :
    transcribe ⟨"secret", "static"⟩
      ⟨"20240101_120000", fun _ => .error "unreachable", none, none, none⟩
      ⟨some "secret", none⟩ =
      ⟨.err 400 "No audio file provided", [], []⟩ :=
  c6_missing_audio_no_side_effects _ _ _ rfl rfl

/-- C7: the storage location is `{stem}_{timestamp}` as directory, with
artifact names `{stem}_transcribed.txt` and `{stem}.vtt`, as witnessed by the
paths the success response reports; and for a fixed timestamp the location
depends only on the filename stem. -/
theorem c7_storage_layout (cfg : Config) (w : World) (req : Request)
    (audio : UploadedFile) (res : EngineResult)
    (hauth : req.authorization = some cfg.token)
    (haudio : req.audioFile = some audio)
    (hsave : w.saveAudioFailure = none)
    (heng : w.engine (path_join (path_join cfg.staticFolder
      (folder_name audio.filename w.now)) audio.filename) = .ok res)
    (htext : w.writeTextFailure = none)
    (hvtt : w.writeVttFailure = none) :
    (transcribe cfg w req).result =
      .ok res.text
        (path_join (path_join cfg.staticFolder ((splitext audio.filename).1 ++ "_" ++ w.now))
          ((splitext audio.filename).1 ++ "_transcribed.txt"))
        (path_join (path_join cfg.staticFolder ((splitext audio.filename).1 ++ "_" ++ w.now))
          ((splitext audio.filename).1 ++ ".vtt")) ∧
    (∀ f₁ f₂ t : String, (splitext f₁).1 = (splitext f₂).1 →
      folder_name f₁ t = folder_name f₂ t ∧
      text_filename f₁ = text_filename f₂ ∧
      vtt_filename f₁ = vtt_filename f₂) := by
  constructor
  · rw [transcribe_success cfg w req audio res hauth haudio hsave heng htext hvtt]
    rfl
  · intro f₁ f₂ t h
    rw [folder_name, folder_name, text_filename, text_filename,
      vtt_filename, vtt_filename, h]
    exact ⟨rfl, rfl, rfl⟩

theorem c7_storage_layout_witness :
    (transcribe ⟨"secret", "static"⟩
      ⟨"20240101_120000", fun _ => .ok ⟨"hi", []⟩, none, none, none⟩
      ⟨some "secret", some ⟨"clip.wav", "RIFFDATA"⟩⟩).result =
      .ok "hi"
        (path_join (path_join "static" ((splitext "clip.wav").1 ++ "_" ++ "20240101_120000"))
          ((splitext "clip.wav").1 ++ "_transcribed.txt"))
        (path_join (path_join "static" ((splitext "clip.wav").1 ++ "_" ++ "20240101_120000"))
          ((splitext "clip.wav").1 ++ ".vtt")) ∧
    (∀ f₁ f₂ t : String, (splitext f₁).1 = (splitext f₂).1 →
      folder_name f₁ t = folder_name f₂ t ∧
      text_filename f₁ = text_filename f₂ ∧
      vtt_filename f₁ = vtt_filename f₂) :=
  c7_storage_layout _ _ _ ⟨"clip.wav", "RIFFDATA"⟩ ⟨"hi", []⟩ rfl rfl rfl rfl rfl rfl

/-- C8: when any of audio persistence, engine invocation, or artifact writing
raises, the handler answers 500 with the fixed body `Internal server error`,
which does not depend on the cause; the cause appears only in the server log,
and the filesystem operations already performed stay in place (no rollback
operation is emitted). -/
theorem c8_internal_error_generic_body (cfg : Config) (w : World) (req : Request)
    (audio : UploadedFile) (e : String)
    (hauth : req.authorization = some cfg.token)
    (haudio : req.audioFile = some audio) :
    (w.saveAudioFailure = some e →
      transcribe cfg w req =
        ⟨.err 500 "Internal server error",
          [.makedirs (path_join cfg.staticFolder (folder_name audio.filename w.now))],
          ["Error during transcription: " ++ e]⟩) ∧
    (w.saveAudioFailure = none →
      w.engine (path_join (path_join cfg.staticFolder
        (folder_name audio.filename w.now)) audio.filename) = .error e →
      transcribe cfg w req =
        ⟨.err 500 "Internal server error",
          [.makedirs (path_join cfg.staticFolder (folder_name audio.filename w.now)),
           .writeFile (path_join (path_join cfg.staticFolder
              (folder_name audio.filename w.now)) audio.filename) audio.content],
          ["Transcribing audio file: " ++ path_join (path_join cfg.staticFolder
              (folder_name audio.filename w.now)) audio.filename,
           "Error during transcription: " ++ e]⟩) ∧
    (∀ res : EngineResult, w.saveAudioFailure = none →
      w.engine (path_join (path_join cfg.staticFolder
        (folder_name audio.filename w.now)) audio.filename) = .ok res →
      w.writeTextFailure = some e →
      transcribe cfg w req =
        ⟨.err 500 "Internal server error",
          [.makedirs (path_join cfg.staticFolder (folder_name audio.filename w.now)),
           .writeFile (path_join (path_join cfg.staticFolder
              (folder_name audio.filename w.now)) audio.filename) audio.content],
          ["Transcribing audio file: " ++ path_join (path_join cfg.staticFolder
              (folder_name audio.filename w.now)) audio.filename,
           "Error during transcription: " ++ e]⟩) ∧
    (∀ res : EngineResult, w.saveAudioFailure = none →
      w.engine (path_join (path_join cfg.staticFolder
        (folder_name audio.filename w.now)) audio.filename) = .ok res →
      w.writeTextFailure = none →
      w.writeVttFailure = some e →
      transcribe cfg w req =
        ⟨.err 500 "Internal server error",
          [.makedirs (path_join cfg.staticFolder (folder_name audio.filename w.now)),
           .writeFile (path_join (path_join cfg.staticFolder
              (folder_name audio.filename w.now)) audio.filename) audio.content,
           .writeFile (path_join (path_join cfg.staticFolder
              (folder_name audio.filename w.now)) (text_filename audio.filename)) res.text],
          ["Transcribing audio file: " ++ path_join (path_join cfg.staticFolder
              (folder_name audio.filename w.now)) audio.filename,
           "Error during transcription: " ++ e]⟩) := by
  refine ⟨?_, ?_, ?_, ?_⟩
  · intro hsave
    simp [transcribe, hauth, haudio, hsave]
  · intro hsave heng
    simp [transcribe, hauth, haudio, hsave, heng]
  · intro res hsave heng htext
    simp [transcribe, hauth, haudio, hsave, heng, htext]
  · intro res hsave heng htext hvtt
    simp [transcribe, hauth, haudio, hsave, heng, htext, hvtt]

theorem c8_internal_error_generic_body_witness :
    transcribe ⟨"secret", "static"⟩
      ⟨"20240101_120000", fun _ => .error "unreachable", some "disk full", none, none⟩
      ⟨some "secret", some ⟨"clip.wav", "RIFFDATA"⟩⟩ =
      ⟨.err 500 "Internal server error",
        [.makedirs (path_join "static" (folder_name "clip.wav" "20240101_120000"))],
        ["Error during transcription: " ++ "disk full"]⟩ :=
  (c8_internal_error_generic_body _ _ _ ⟨"clip.wav", "RIFFDATA"⟩ "disk full" rfl rfl).1 rfl

/-- C9: both download endpoints resolve the file path by joining the storage
root, the directory name and the file name; a missing path yields a 404
`File not found`, an existing one is returned as an attachment. -/
theorem c9_download_resolution (cfg : Config) (fs : String → Bool)
    (folder filename : String) :
    (fs (path_join (path_join cfg.staticFolder folder) filename) = false →
      download_text cfg fs folder filename = .notFound 404 "File not found" ∧
      download_vtt cfg fs folder filename = .notFound 404 "File not found") ∧
    (fs (path_join (path_join cfg.staticFolder folder) filename) = true →
      download_text cfg fs folder filename =
        .attachment (path_join (path_join cfg.staticFolder folder) filename) ∧
      download_vtt cfg fs folder filename =
        .attachment (path_join (path_join cfg.staticFolder folder) filename)) := by
  constructor
  · intro h
    constructor <;> simp [download_text, download_vtt, h]
  · intro h
    constructor <;> simp [download_text, download_vtt, h]

theorem c9_download_resolution_witness :
    ((fun _ : String => false) (path_join (path_join "static" "clip_20240101_120000")
        "clip_transcribed.txt") = false) ∧
    download_text ⟨"secret", "static"⟩ (fun _ => false)
        "clip_20240101_120000" "clip_transcribed.txt" = .notFound 404 "File not found" ∧
    download_vtt ⟨"secret", "static"⟩ (fun _ => false)
        "clip_20240101_120000" "clip_transcribed.txt" = .notFound 404 "File not found" :=
  ⟨rfl, (c9_download_resolution ⟨"secret", "static"⟩ (fun _ => false)
    "clip_20240101_120000" "clip_transcribed.txt").1 rfl⟩
